import Mathlib

/-!
Verification of the recipe-search pipeline in src/App.js (the findRecipes
routine of the single React Native component).

The embedding is a shallow one:

* JavaScript strings are modelled as Lean String values; the string
  operations the code uses (trim, split on a period, join, endsWith) are
  re-implemented structurally over List Char so that they compute in the
  kernel, mirroring the ECMAScript semantics of
  s.trim(), s.split('.'), a.join('.'), s.endsWith('.').
* The two HTTP endpoints are modelled as an oracle (Network) mapping a
  query / meal id to either a parsed JSON payload or a failure; failure
  covers both a network error and a body on which res.json() throws.
* findRecipes is modelled as a function from the component state
  (ingredients, loading, recipes, error) and the oracle to the final
  state together with the list of HTTP requests issued, in order.
* JavaScript exceptions inside the try block (in particular the TypeError
  raised by d.meals[0] when meals is null, or by reading a field of
  undefined when meals is an empty array) are modelled with Option; any
  such failure lands in the catch branch of the model exactly as it does
  in the source.
-/

/-! ### Character-level string primitives (ECMAScript semantics) -/

/-- Whitespace predicate used by trim. -/
def isWS (c : Char) : Bool := c.isWhitespace

/-- s.trim() : drop whitespace from both ends. -/
def trimChars (l : List Char) : List Char :=
  ((l.dropWhile isWS).reverse.dropWhile isWS).reverse

/-- s.split('.') : split on every period; the empty string yields one
empty segment, as in ECMAScript. -/
def splitDot : List Char → List (List Char)
  | [] => [[]]
  | c :: cs =>
    if c = '.' then [] :: splitDot cs
    else
      match splitDot cs with
      | [] => [[c]]
      | h :: t => (c :: h) :: t

/-- a.join('.') : interleave a period between segments. -/
def joinDot : List (List Char) → List Char
  | [] => []
  | [x] => x
  | x :: y :: xs => x ++ '.' :: joinDot (y :: xs)

/-- s.endsWith('.') : the last character is a period. -/
def endsWithDot (l : List Char) : Bool :=
  match l.reverse with
  | [] => false
  | c :: _ => c = '.'

/-- The summary computation of src/App.js lines 83-85:
let summary = meal.strInstructions or the empty string;
summary = summary.split('.').slice(0, 2).join('.').trim();
if (summary and not summary.endsWith('.')) summary += '.'. -/
def summarizeChars (instructions : List Char) : List Char :=
  let s := trimChars (joinDot ((splitDot instructions).take 2))
  if !s.isEmpty && !endsWithDot s then s ++ ['.'] else s

/-- String-level wrapper of the summary computation; none models an
absent (undefined or null) strInstructions field, which the source
replaces with the empty string via the logical-or default. -/
def summarize (instructions : Option String) : String :=
  String.mk (summarizeChars (instructions.getD "").data)

/-- ingredients.trim() at the String level. -/
def jsTrim (s : String) : String := String.mk (trimChars s.data)

/-! ### Data model -/

/-- One entry of the filter endpoint response: only idMeal is consumed
(src/App.js line 74). -/
structure Candidate where
  idMeal : String
deriving DecidableEq

/-- Parsed body of the filter endpoint: the top-level meals key, none
when it is null or absent (both are falsy at line 62). -/
structure FilterPayload where
  meals : Option (List Candidate)
deriving DecidableEq

/-- One raw meal record of the lookup endpoint; every consumed field may
be absent (undefined in JavaScript), hence Option. -/
structure Meal where
  idMeal : Option String
  strMeal : Option String
  strMealThumb : Option String
  strInstructions : Option String
  strCategory : Option String
  strArea : Option String
  strTags : Option String
deriving DecidableEq

/-- Parsed body of a lookup call: its meals key, none when null/absent. -/
structure DetailPayload where
  meals : Option (List Meal)
deriving DecidableEq

/-- The display object built at src/App.js lines 87-95. -/
structure DisplayRecipe where
  id : Option String
  name : Option String
  thumbnail : Option String
  summary : String
  strCategory : Option String
  strArea : Option String
  strTags : Option String
deriving DecidableEq

/-- The component state: the four useState hooks of src/App.js
lines 20-23. -/
structure SearchState where
  ingredients : String
  loading : Bool
  recipes : List DisplayRecipe
  error : Option String
deriving DecidableEq

/-- Initial component state (useState initial values). -/
def initialState : SearchState :=
  { ingredients := "", loading := false, recipes := [], error := none }

/-! ### Network oracle and request log -/

/-- Result of one fetch-then-parse round trip: ok with the parsed JSON
payload, or fail when the transport errors or the body is not JSON
(res.json() throws). -/
inductive FetchResult (α : Type) where
  | ok : α → FetchResult α
  | fail : FetchResult α
deriving DecidableEq

/-- The remote API as an oracle: filter.php keyed by the (trimmed)
query, lookup.php keyed by the meal id. -/
structure Network where
  filter : String → FetchResult FilterPayload
  lookup : String → FetchResult DetailPayload

/-- One HTTP request issued by the pipeline, for the observable trace. -/
inductive Request where
  | filterReq : String → Request
  | lookupReq : String → Request
deriving DecidableEq

/-! ### The pipeline (src/App.js findRecipes, lines 44-105) -/

/-- Message set at line 48. -/
def emptyInputMsg : String := "Please enter at least one ingredient"

/-- Message set at line 64. -/
def noRecipesMsg : String := "No recipes found for those ingredients. Try different words."

/-- Message set at line 101 (the catch branch). -/
def fetchErrorMsg : String := "An error occurred while fetching recipes. Check your network."

/-- Lines 87-95: build the display object from one meal record. Plain
field reads of an existing object never throw in JavaScript; an absent
field passes through as absent, and strInstructions defaults to the
empty string before summarization. -/
def reduceMeal (meal : Meal) : DisplayRecipe :=
  { id := meal.idMeal
    name := meal.strMeal
    thumbnail := meal.strMealThumb
    summary := summarize meal.strInstructions
    strCategory := meal.strCategory
    strArea := meal.strArea
    strTags := meal.strTags }

/-- Lines 81-95 for one detail payload: const meal = d.meals[0] throws a
TypeError (modelled none) when meals is null/absent, and reading a field
of meal throws when meals is the empty array (meal undefined). -/
def reducePayload (d : DetailPayload) : Option DisplayRecipe :=
  match d.meals with
  | some (meal :: _) => some (reduceMeal meal)
  | _ => none

/-- Line 80: details.map over the payloads; the first thrown TypeError
aborts the whole map and propagates to the catch branch. -/
def mapReduce : List DetailPayload → Option (List DisplayRecipe)
  | [] => some []
  | d :: ds =>
    match reducePayload d, mapReduce ds with
    | some r, some rs => some (r :: rs)
    | _, _ => none

/-- Lines 73-77: one lookup request per candidate, joined by
Promise.all — the aggregate fails as soon as any single call fails, and
on success the payloads are in candidate order. -/
def fetchDetails (net : Network) : List Candidate → FetchResult (List DetailPayload)
  | [] => .ok []
  | c :: cs =>
    match net.lookup c.idMeal, fetchDetails net cs with
    | .ok d, .ok ds => .ok (d :: ds)
    | _, _ => .fail

/-- The try block of findRecipes (lines 55-104), entered with loading
already true, recipes cleared and error cleared. Returns the final
state and the ordered list of HTTP requests issued. Note that all
lookup requests are launched before Promise.all settles, so they appear
in the trace even when the batch fails. -/
def searchPhase (net : Network) (s : SearchState) : SearchState × List Request :=
  let query := jsTrim s.ingredients
  match net.filter query with
  | .fail => ({ s with error := some fetchErrorMsg, loading := false }, [.filterReq query])
  | .ok data =>
    match data.meals with
    | none =>
      ({ s with recipes := [], error := some noRecipesMsg, loading := false }, [.filterReq query])
    | some meals =>
      let limited := meals.take 10
      let reqs := .filterReq query :: limited.map (fun m => .lookupReq m.idMeal)
      match fetchDetails net limited with
      | .fail => ({ s with error := some fetchErrorMsg, loading := false }, reqs)
      | .ok details =>
        match mapReduce details with
        | none => ({ s with error := some fetchErrorMsg, loading := false }, reqs)
        | some mapped => ({ s with recipes := mapped, loading := false }, reqs)

/-- findRecipes, lines 44-105: clear error, validate the trimmed input
(returning early with a message and no request on failure), then clear
results, raise loading and run the network phase. -/
def findRecipes (net : Network) (s : SearchState) : SearchState × List Request :=
  let s0 : SearchState := { s with error := none }
  let query := jsTrim s0.ingredients
  if query = "" then ({ s0 with error := some emptyInputMsg }, [])
  else searchPhase net { s0 with loading := true, recipes := [] }

/-- States reachable through the component: the initial render, the user
editing the text input (onChangeText at line 158), and a completed
findRecipes invocation against an arbitrary network. -/
inductive Reachable : SearchState → Prop where
  | init : Reachable initialState
  | typing (s : SearchState) (raw : String) : Reachable s → Reachable { s with ingredients := raw }
  | search (s : SearchState) (net : Network) : Reachable s → Reachable (findRecipes net s).1

/-! ### The spec-side summary algorithm (for the refinement claim C1) -/

/-- Modelled from the spec's words (section 4.4): take the raw
instructions text, empty when absent; split it on the period character
into segments; keep at most the first two segments; re-join them with a
period as separator; trim surrounding whitespace; if the result is
non-empty and does not already end with a period, append one period. -/
def summarizeSpec (instructions : Option String) : String :=
  let raw : String := match instructions with | none => "" | some s => s
  let segments := splitDot raw.data
  let kept := segments.take 2
  let rejoined := joinDot kept
  let trimmed := trimChars rejoined
  let final := if !trimmed.isEmpty && !endsWithDot trimmed then trimmed ++ ['.'] else trimmed
  String.mk final

/-- A concrete meal record used in examples: only instructions set. -/
def mealWithInstructions (instr : Option String) : Meal :=
  { idMeal := none, strMeal := none, strMealThumb := none,
    strInstructions := instr, strCategory := none, strArea := none, strTags := none }

/-- C1: for every DetailRecord the produced summary equals the result of
the spec's algorithm (split on periods, keep two segments, re-join,
trim, append a period when non-empty and missing one); in particular
the four-sentence example keeps two sentences, a period is appended to
an unterminated sentence, and absent or empty instructions give the
empty summary. -/
theorem C1_summary_refines_spec :
    (∀ meal : Meal, (reduceMeal meal).summary = summarizeSpec meal.strInstructions) ∧
    (reduceMeal (mealWithInstructions
        (some "Boil water. Add pasta. Stir occasionally. Serve hot."))).summary
      = "Boil water. Add pasta." ∧
    (reduceMeal (mealWithInstructions (some "Mix well"))).summary = "Mix well." ∧
    (reduceMeal (mealWithInstructions none)).summary = "" ∧
    (reduceMeal (mealWithInstructions (some ""))).summary = "" := by
  refine ⟨fun meal => ?_, by decide, by decide, by decide, by decide⟩
  cases h : meal.strInstructions <;> simp only [reduceMeal, summarize, h] <;> rfl

/-! ### Helper lemmas about the pipeline -/

/-- When the trimmed input is empty, findRecipes returns early: only the
error slot changes and no request is issued (lines 45-50). -/
theorem findRecipes_of_trim_eq (net : Network) (s : SearchState)
    (h : jsTrim s.ingredients = "") :
    findRecipes net s = ({ s with error := some emptyInputMsg }, []) := by
  simp only [findRecipes, h, if_pos]

/-- When the trimmed input is non-empty, findRecipes is the network
phase run from the state with error cleared, recipes cleared and
loading raised (lines 45-59). -/
theorem findRecipes_of_trim_ne (net : Network) (s : SearchState)
    (h : jsTrim s.ingredients ≠ "") :
    findRecipes net s
      = searchPhase net { s with error := none, loading := true, recipes := [] } := by
  simp only [findRecipes, h, if_neg, ite_false]

/-- If any single lookup in the batch fails, the Promise.all join
fails. -/
theorem fetchDetails_fail_of_mem (net : Network) {cands : List Candidate} {c : Candidate}
    (hc : c ∈ cands) (hl : net.lookup c.idMeal = .fail) :
    fetchDetails net cands = .fail := by
  induction cands with
  | nil => cases hc
  | cons a as ih =>
    rcases List.mem_cons.mp hc with rfl | hmem
    · cases hrest : fetchDetails net as <;> simp [fetchDetails, hl, hrest]
    · cases ha : net.lookup a.idMeal <;> simp [fetchDetails, ha, ih hmem]

/-- A successful Promise.all join returns one payload per candidate, in
candidate order. -/
theorem fetchDetails_ok_spec (net : Network) :
    ∀ {cands : List Candidate} {details : List DetailPayload},
      fetchDetails net cands = .ok details →
      details.length = cands.length ∧
      ∀ (i : Nat) (c : Candidate), cands[i]? = some c →
        ∃ d, details[i]? = some d ∧ net.lookup c.idMeal = .ok d := by
  intro cands
  induction cands with
  | nil =>
    intro details h
    simp only [fetchDetails, FetchResult.ok.injEq] at h
    subst h
    exact ⟨rfl, by intro i c hc; simp at hc⟩
  | cons a as ih =>
    intro details h
    cases ha : net.lookup a.idMeal <;> cases hrest : fetchDetails net as <;>
        simp only [fetchDetails, ha, hrest, FetchResult.ok.injEq] at h <;>
      first
      | exact FetchResult.noConfusion h
      | skip
    subst h
    obtain ⟨hlen, hpt⟩ := ih hrest
    refine ⟨by simp [hlen], ?_⟩
    intro i c hc
    cases i with
    | zero =>
      simp only [List.getElem?_cons_zero, Option.some.injEq] at hc
      subst hc
      exact ⟨_, by simp, ha⟩
    | succ j =>
      simp only [List.getElem?_cons_succ] at hc ⊢
      exact hpt j c hc

/-- A successful details.map returns one display object per payload, in
payload order, each the reduction of its payload. -/
theorem mapReduce_some_spec :
    ∀ {ds : List DetailPayload} {rs : List DisplayRecipe},
      mapReduce ds = some rs →
      rs.length = ds.length ∧
      ∀ (i : Nat) (d : DetailPayload), ds[i]? = some d →
        ∃ r, rs[i]? = some r ∧ reducePayload d = some r := by
  intro ds
  induction ds with
  | nil =>
    intro rs h
    simp only [mapReduce, Option.some.injEq] at h
    subst h
    exact ⟨rfl, by intro i d hd; simp at hd⟩
  | cons a as ih =>
    intro rs h
    cases ha : reducePayload a <;> cases hrest : mapReduce as <;>
        simp only [mapReduce, ha, hrest, Option.some.injEq] at h <;>
      first
      | exact Option.noConfusion h
      | skip
    subst h
    obtain ⟨hlen, hpt⟩ := ih hrest
    refine ⟨by simp [hlen], ?_⟩
    intro i d hd
    cases i with
    | zero =>
      simp only [List.getElem?_cons_zero, Option.some.injEq] at hd
      subst hd
      exact ⟨_, by simp, ha⟩
    | succ j =>
      simp only [List.getElem?_cons_succ] at hd ⊢
      exact hpt j d hd

/-! ### Concrete networks and states used in witnesses and
counterexamples -/

/-- A meal record with only instructions present. -/
def demoMeal : Meal :=
  { idMeal := some "52772", strMeal := some "Teriyaki Chicken Casserole",
    strMealThumb := none, strInstructions := some "Mix well",
    strCategory := none, strArea := none, strTags := none }

/-- A network where the query tomato matches one meal whose lookup
succeeds. -/
def demoNet : Network :=
  { filter := fun q => if q = "tomato" then .ok { meals := some [{ idMeal := "52772" }] } else .fail
    lookup := fun i => if i = "52772" then .ok { meals := some [demoMeal] } else .fail }

/-- A network where the filter succeeds with one candidate but every
lookup fails. -/
def failNet : Network :=
  { filter := fun _ => .ok { meals := some [{ idMeal := "7" }] }
    lookup := fun _ => .fail }

/-- A network whose filter response carries a null meals key. -/
def noneNet : Network :=
  { filter := fun _ => .ok { meals := none }
    lookup := fun _ => .fail }

/-- Twelve candidates, to exercise the ten-entry cap. -/
def twelveCands : List Candidate :=
  [{ idMeal := "1" }, { idMeal := "2" }, { idMeal := "3" }, { idMeal := "4" },
   { idMeal := "5" }, { idMeal := "6" }, { idMeal := "7" }, { idMeal := "8" },
   { idMeal := "9" }, { idMeal := "10" }, { idMeal := "11" }, { idMeal := "12" }]

/-- A network whose filter returns twelve candidates and whose lookups
all fail (the trace of issued requests does not depend on that). -/
def twelveNet : Network :=
  { filter := fun _ => .ok { meals := some twelveCands }
    lookup := fun _ => .fail }

/-! ### The claims -/

/-- C2: for every filter response whose meals array has length N, the
detail-fetch stage is invoked with exactly min(N, 10) candidates — the
first min(N, 10) entries of meals in server order (hard truncation, no
ranking): the issued requests are the filter call followed by one
lookup per entry of the ten-entry prefix, in order. -/
theorem C2_candidate_truncation (net : Network) (s : SearchState) (l : List Candidate)
    (hq : jsTrim s.ingredients ≠ "")
    (hf : net.filter (jsTrim s.ingredients) = .ok { meals := some l }) :
    (findRecipes net s).2
      = .filterReq (jsTrim s.ingredients)
        :: (l.take 10).map (fun m => Request.lookupReq m.idMeal) ∧
    (l.take 10).length = min l.length 10 ∧
    ∀ i : Nat, i < min l.length 10 → (l.take 10)[i]? = l[i]? := by
  refine ⟨?_, by simp [Nat.min_comm], ?_⟩
  · rw [findRecipes_of_trim_ne net s hq]
    cases hd : fetchDetails net (l.take 10) with
    | fail => simp [searchPhase, hf, hd]
    | ok details =>
      cases hm : mapReduce details with
      | none => simp [searchPhase, hf, hd, hm]
      | some mapped => simp [searchPhase, hf, hd, hm]
  · intro i hi
    exact List.getElem?_take_of_lt (Nat.lt_of_lt_of_le hi (Nat.min_le_right _ _))

/-- Witness for C2 at a network returning twelve candidates: exactly ten
lookups are issued, for the first ten ids in order. -/
theorem C2_candidate_truncation_witness :
    (findRecipes twelveNet { initialState with ingredients := " beef " }).2
      = .filterReq (jsTrim " beef ")
        :: (twelveCands.take 10).map (fun m => Request.lookupReq m.idMeal) ∧
    (twelveCands.take 10).length = min twelveCands.length 10 ∧
    ∀ i : Nat, i < min twelveCands.length 10 → (twelveCands.take 10)[i]? = twelveCands[i]? :=
  C2_candidate_truncation twelveNet { initialState with ingredients := " beef " }
    twelveCands (by decide) rfl

/-- C3: whenever one of the parallel lookup requests fails (network
error or malformed body), the whole search ends failed: the error slot
holds the generic fetch-error message and the results list is empty —
no partial list of successfully fetched recipes is exposed. -/
theorem C3_lookup_failure_aborts (net : Network) (s : SearchState)
    (l : List Candidate) (c : Candidate)
    (hq : jsTrim s.ingredients ≠ "")
    (hf : net.filter (jsTrim s.ingredients) = .ok { meals := some l })
    (hc : c ∈ l.take 10) (hl : net.lookup c.idMeal = .fail) :
    (findRecipes net s).1.error = some fetchErrorMsg ∧
    (findRecipes net s).1.recipes = [] := by
  have hfail : fetchDetails net (l.take 10) = .fail := fetchDetails_fail_of_mem net hc hl
  rw [findRecipes_of_trim_ne net s hq]
  constructor <;> simp [searchPhase, hf, hfail]

/-- Witness for C3: one candidate whose lookup fails ends the search
with the fetch-error message and no results. -/
theorem C3_lookup_failure_aborts_witness :
    (findRecipes failNet { initialState with ingredients := "egg" }).1.error
      = some fetchErrorMsg ∧
    (findRecipes failNet { initialState with ingredients := "egg" }).1.recipes = [] :=
  C3_lookup_failure_aborts failNet { initialState with ingredients := "egg" }
    [{ idMeal := "7" }] { idMeal := "7" } (by decide) rfl (by decide) rfl

/-- C4: when the filter response has a null or absent meals key after a
successful round trip, the pipeline ends empty: no results, the
no-recipes message surfaced, loading lowered, no lookup request issued
(the trace is the filter call alone), and the message differs from the
transport-failure one. -/
theorem C4_null_meals_empty_state (net : Network) (s : SearchState)
    (hq : jsTrim s.ingredients ≠ "")
    (hf : net.filter (jsTrim s.ingredients) = .ok { meals := none }) :
    (findRecipes net s).1.recipes = [] ∧
    (findRecipes net s).1.error = some noRecipesMsg ∧
    (findRecipes net s).1.loading = false ∧
    (findRecipes net s).2 = [.filterReq (jsTrim s.ingredients)] ∧
    noRecipesMsg ≠ fetchErrorMsg := by
  rw [findRecipes_of_trim_ne net s hq]
  refine ⟨?_, ?_, ?_, ?_, by decide⟩ <;> simp [searchPhase, hf]

/-- Witness for C4 at a network answering the filter with a null meals
key. -/
theorem C4_null_meals_empty_state_witness :
    (findRecipes noneNet { initialState with ingredients := "okra" }).1.recipes = [] ∧
    (findRecipes noneNet { initialState with ingredients := "okra" }).1.error
      = some noRecipesMsg ∧
    (findRecipes noneNet { initialState with ingredients := "okra" }).1.loading = false ∧
    (findRecipes noneNet { initialState with ingredients := "okra" }).2
      = [.filterReq (jsTrim "okra")] ∧
    noRecipesMsg ≠ fetchErrorMsg :=
  C4_null_meals_empty_state noneNet { initialState with ingredients := "okra" }
    (by decide) rfl

/-- The state reached from the initial render by typing tomato,
searching against demoNet (which succeeds with one recipe), typing a
whitespace-only input and searching again. -/
def staleResultsState : SearchState :=
  (findRecipes demoNet
    { (findRecipes demoNet { initialState with ingredients := "tomato" }).1
        with ingredients := "   " }).1

/-- C5 counterexample: a reachable state carries both the empty-input
error message and the non-empty result list of the previous successful
search, because the empty-input rejection path writes error without
touching recipes — so the claimed mutual exclusivity fails. -/
theorem C5_counterexample_error_with_results :
    Reachable staleResultsState ∧
    staleResultsState.error = some emptyInputMsg ∧
    staleResultsState.recipes = [reduceMeal demoMeal] := by
  refine ⟨?_, by decide, by decide⟩
  exact .search _ demoNet (.typing _ "   " (.search _ demoNet (.typing _ "tomato" .init)))

/-- C5 amended: for every invocation whose input passes validation, the
resulting state never holds both an error and a non-empty result list
(the empty-result, failure and success paths keep them exclusive); only
the empty-input rejection path can leave a previous result list next to
the new error message. -/
theorem C5_amended_exclusivity (net : Network) (s : SearchState)
    (hq : jsTrim s.ingredients ≠ "") :
    (findRecipes net s).1.error = none ∨ (findRecipes net s).1.recipes = [] := by
  rw [findRecipes_of_trim_ne net s hq]
  cases hf : net.filter (jsTrim s.ingredients) with
  | fail => right; simp [searchPhase, hf]
  | ok data =>
    cases hm : data.meals with
    | none => right; simp [searchPhase, hf, hm]
    | some l =>
      cases hd : fetchDetails net (l.take 10) with
      | fail => right; simp [searchPhase, hf, hm, hd]
      | ok details =>
        cases hr : mapReduce details with
        | none => right; simp [searchPhase, hf, hm, hd, hr]
        | some mapped => left; simp [searchPhase, hf, hm, hd, hr]

/-- Witness for the amended C5 at a successful search. -/
theorem C5_amended_exclusivity_witness :
    (findRecipes demoNet { initialState with ingredients := "tomato" }).1.error = none ∨
    (findRecipes demoNet { initialState with ingredients := "tomato" }).1.recipes = [] :=
  C5_amended_exclusivity demoNet { initialState with ingredients := "tomato" } (by decide)

/-- A network whose single lookup round trip succeeds but returns a
payload with a null meals key: the detail-fetch stage accepts it, the
reduction step then throws. -/
def badDetailNet : Network :=
  { filter := fun _ => .ok { meals := some [{ idMeal := "9" }] }
    lookup := fun _ => .ok { meals := none } }

/-- C6 counterexample: the reduction step is not total on detail
payloads — a payload whose meals key is null has passed the detail-fetch
stage (the lookup settled with a parsed body), yet reading meals[0]
throws, and the whole search ends failed with the generic fetch-error
message instead of producing a DisplayRecipe. -/
theorem C6_counterexample_reduction_throws :
    fetchDetails badDetailNet [{ idMeal := "9" }] = .ok [{ meals := none }] ∧
    reducePayload { meals := none } = none ∧
    (findRecipes badDetailNet { initialState with ingredients := "pea" }).1.error
      = some fetchErrorMsg ∧
    (findRecipes badDetailNet { initialState with ingredients := "pea" }).1.recipes = [] := by
  exact ⟨by decide, rfl, by decide, by decide⟩

/-- C6 amended: the reduction is total on structurally valid detail
payloads — whenever the payload's meals array is present and non-empty,
it produces the DisplayRecipe of the first record, passing each
possibly-missing field through (absent stays absent) and deriving the
summary from the instructions, which default to the empty string when
absent; only a payload with a null, absent or empty meals array makes
the reduction step throw and the search fail. -/
theorem C6_amended_reduce_total_on_records (d : DetailPayload) (meal : Meal)
    (rest : List Meal) (h : d.meals = some (meal :: rest)) :
    reducePayload d = some (reduceMeal meal) ∧
    (reduceMeal meal).id = meal.idMeal ∧
    (reduceMeal meal).name = meal.strMeal ∧
    (reduceMeal meal).thumbnail = meal.strMealThumb ∧
    (reduceMeal meal).summary = summarize meal.strInstructions ∧
    (reduceMeal meal).strCategory = meal.strCategory ∧
    (reduceMeal meal).strArea = meal.strArea ∧
    (reduceMeal meal).strTags = meal.strTags ∧
    summarize none = "" := by
  refine ⟨?_, rfl, rfl, rfl, rfl, rfl, rfl, rfl, by decide⟩
  simp [reducePayload, h]

/-- Witness for the amended C6 at a record with every field absent. -/
theorem C6_amended_reduce_total_on_records_witness :
    reducePayload { meals := some [mealWithInstructions none] }
      = some (reduceMeal (mealWithInstructions none)) ∧
    (reduceMeal (mealWithInstructions none)).id = (mealWithInstructions none).idMeal ∧
    (reduceMeal (mealWithInstructions none)).name = (mealWithInstructions none).strMeal ∧
    (reduceMeal (mealWithInstructions none)).thumbnail
      = (mealWithInstructions none).strMealThumb ∧
    (reduceMeal (mealWithInstructions none)).summary
      = summarize (mealWithInstructions none).strInstructions ∧
    (reduceMeal (mealWithInstructions none)).strCategory
      = (mealWithInstructions none).strCategory ∧
    (reduceMeal (mealWithInstructions none)).strArea = (mealWithInstructions none).strArea ∧
    (reduceMeal (mealWithInstructions none)).strTags = (mealWithInstructions none).strTags ∧
    summarize none = "" :=
  C6_amended_reduce_total_on_records { meals := some [mealWithInstructions none] }
    (mealWithInstructions none) [] rfl

/-- C7: for every raw input that is empty or all-whitespace, the search
fails locally with the empty-input message, issues no request, and the
loading flag is left untouched (so it stays false and the Searching
state is never entered). -/
theorem C7_empty_input_rejected (net : Network) (s : SearchState)
    (h : jsTrim s.ingredients = "") :
    (findRecipes net s).2 = [] ∧
    (findRecipes net s).1.error = some emptyInputMsg ∧
    (findRecipes net s).1.loading = s.loading := by
  rw [findRecipes_of_trim_eq net s h]
  exact ⟨rfl, rfl, rfl⟩

/-- Witness for C7 at a whitespace-only input. -/
theorem C7_empty_input_rejected_witness :
    (findRecipes demoNet { initialState with ingredients := "   " }).2 = [] ∧
    (findRecipes demoNet { initialState with ingredients := "   " }).1.error
      = some emptyInputMsg ∧
    (findRecipes demoNet { initialState with ingredients := "   " }).1.loading
      = ({ initialState with ingredients := "   " } : SearchState).loading :=
  C7_empty_input_rejected demoNet { initialState with ingredients := "   " } (by decide)

/-- C8: every invocation that passes validation runs the whole network
phase from a state whose error and recipes slots are already cleared
(and loading raised): the prior error and prior results are gone before
any request is issued. -/
theorem C8_cleared_before_network (net : Network) (s : SearchState)
    (h : jsTrim s.ingredients ≠ "") :
    SearchState.error { s with error := none, loading := true, recipes := [] } = none ∧
    SearchState.recipes { s with error := none, loading := true, recipes := [] } = [] ∧
    findRecipes net s
      = searchPhase net { s with error := none, loading := true, recipes := [] } :=
  ⟨rfl, rfl, findRecipes_of_trim_ne net s h⟩

/-- A state still carrying an old error and old results. -/
def staleStart : SearchState :=
  { ingredients := "kale", loading := false,
    recipes := [reduceMeal demoMeal], error := some fetchErrorMsg }

/-- Witness for C8 from a state still carrying an old error and old
results. -/
theorem C8_cleared_before_network_witness :
    SearchState.error { staleStart with error := none, loading := true, recipes := [] }
      = none ∧
    SearchState.recipes { staleStart with error := none, loading := true, recipes := [] }
      = [] ∧
    findRecipes demoNet staleStart
      = searchPhase demoNet { staleStart with error := none, loading := true, recipes := [] } :=
  C8_cleared_before_network demoNet staleStart (by decide)

/-- C10: an invocation rejected by input validation leaves the results
list exactly as it was (as well as the input text and the loading
flag): only the error slot is written, so an earlier result list stays
in state next to the new empty-input message. -/
theorem C10_rejection_preserves_results (net : Network) (s : SearchState)
    (h : jsTrim s.ingredients = "") :
    (findRecipes net s).1.recipes = s.recipes ∧
    (findRecipes net s).1.error = some emptyInputMsg ∧
    (findRecipes net s).1.loading = s.loading ∧
    (findRecipes net s).1.ingredients = s.ingredients := by
  rw [findRecipes_of_trim_eq net s h]
  exact ⟨rfl, rfl, rfl, rfl⟩

/-- A state holding one displayed recipe and a blank input. -/
def priorResultsState : SearchState :=
  { ingredients := " ", loading := false,
    recipes := [reduceMeal demoMeal], error := none }

/-- Witness for C10 from a state holding one displayed recipe: the
recipe survives the rejected invocation. -/
theorem C10_rejection_preserves_results_witness :
    (findRecipes demoNet priorResultsState).1.recipes = priorResultsState.recipes ∧
    (findRecipes demoNet priorResultsState).1.error = some emptyInputMsg ∧
    (findRecipes demoNet priorResultsState).1.loading = priorResultsState.loading ∧
    (findRecipes demoNet priorResultsState).1.ingredients = priorResultsState.ingredients :=
  C10_rejection_preserves_results demoNet priorResultsState (by decide)

/-- C9: on a fully successful search the result list is the reductions
of the fetched details, one per candidate, never reordered: the i-th
display recipe comes from the payload returned by the lookup of the
i-th candidate. -/
theorem C9_order_preserved (net : Network) (s : SearchState) (l : List Candidate)
    (details : List DetailPayload) (mapped : List DisplayRecipe)
    (hq : jsTrim s.ingredients ≠ "")
    (hf : net.filter (jsTrim s.ingredients) = .ok { meals := some l })
    (hd : fetchDetails net (l.take 10) = .ok details)
    (hm : mapReduce details = some mapped) :
    (findRecipes net s).1.recipes = mapped ∧
    (findRecipes net s).1.error = none ∧
    (findRecipes net s).1.loading = false ∧
    mapped.length = (l.take 10).length ∧
    ∀ i : Nat, i < (l.take 10).length →
      ∃ c d r, (l.take 10)[i]? = some c ∧ details[i]? = some d ∧ mapped[i]? = some r ∧
        net.lookup c.idMeal = .ok d ∧ reducePayload d = some r := by
  obtain ⟨hlen1, hpt1⟩ := fetchDetails_ok_spec net hd
  obtain ⟨hlen2, hpt2⟩ := mapReduce_some_spec hm
  rw [findRecipes_of_trim_ne net s hq]
  refine ⟨?_, ?_, ?_, hlen2.trans hlen1, ?_⟩
  · simp [searchPhase, hf, hd, hm]
  · simp [searchPhase, hf, hd, hm]
  · simp [searchPhase, hf, hd, hm]
  · intro i hi
    have hc : (l.take 10)[i]? = some ((l.take 10)[i]) := List.getElem?_eq_getElem hi
    obtain ⟨d, hdi, hld⟩ := hpt1 i _ hc
    obtain ⟨r, hri, hrd⟩ := hpt2 i d hdi
    exact ⟨_, d, r, hc, hdi, hri, hld, hrd⟩

/-- Two distinguishable meal records. -/
def mealA : Meal :=
  { idMeal := some "1", strMeal := some "Arrabiata",
    strMealThumb := none, strInstructions := some "Stir",
    strCategory := none, strArea := none, strTags := none }

/-- Second distinguishable meal record. -/
def mealB : Meal :=
  { idMeal := some "2", strMeal := some "Bruschetta",
    strMealThumb := none, strInstructions := some "Bake",
    strCategory := none, strArea := none, strTags := none }

/-- A network with two candidates whose lookups succeed with distinct
records. -/
def orderNet : Network :=
  { filter := fun _ => .ok { meals := some [{ idMeal := "1" }, { idMeal := "2" }] }
    lookup := fun i =>
      if i = "1" then .ok { meals := some [mealA] }
      else if i = "2" then .ok { meals := some [mealB] }
      else .fail }

/-- Witness for C9 at a two-candidate search: the two display recipes
appear in candidate order. -/
theorem C9_order_preserved_witness :
    (findRecipes orderNet { initialState with ingredients := "rice" }).1.recipes
      = [reduceMeal mealA, reduceMeal mealB] ∧
    (findRecipes orderNet { initialState with ingredients := "rice" }).1.error = none ∧
    (findRecipes orderNet { initialState with ingredients := "rice" }).1.loading = false ∧
    ([reduceMeal mealA, reduceMeal mealB] : List DisplayRecipe).length
      = (([{ idMeal := "1" }, { idMeal := "2" }] : List Candidate).take 10).length ∧
    ∀ i : Nat, i < (([{ idMeal := "1" }, { idMeal := "2" }] : List Candidate).take 10).length →
      ∃ c d r,
        (([{ idMeal := "1" }, { idMeal := "2" }] : List Candidate).take 10)[i]? = some c ∧
        ([{ meals := some [mealA] }, { meals := some [mealB] }] : List DetailPayload)[i]?
          = some d ∧
        ([reduceMeal mealA, reduceMeal mealB] : List DisplayRecipe)[i]? = some r ∧
        orderNet.lookup c.idMeal = .ok d ∧ reducePayload d = some r :=
  C9_order_preserved orderNet { initialState with ingredients := "rice" }
    [{ idMeal := "1" }, { idMeal := "2" }]
    [{ meals := some [mealA] }, { meals := some [mealB] }]
    [reduceMeal mealA, reduceMeal mealB]
    (by decide) rfl (by decide) (by decide)
